import Mathlib

/-!
Verification of the emma health-check monitoring core.

This file gives a shallow embedding, in Lean 4, of the scheduling and
health-check subsystem of the repository:

* `server/app/services/service_manager.py` (state machine, uptime, CRUD),
* `server/app/services/health_checks.py` (protocol checkers and registry),
* `server/app/services/scheduler.py` (due-service computation and dispatch),
* `server/app/api/v1/routers/services.py` (manual trigger route).

Conventions of the embedding:

* Wall-clock timestamps and elapsed times are rationals (`ℚ`), a time unit
  being one second (milliseconds for response times, as in the source).
  Python `float` arithmetic is idealised to exact rational arithmetic.
* Network effects are modelled by an explicit environment value (an
  inductive of the observable events a probe can produce); each checker is
  a total function of the target, the config and that event, mirroring the
  fact that the Python checkers convert every expected failure into a
  returned `CheckResult` instead of an exception.
* Database state is passed explicitly: a service table is a `List Service`
  and the persisted check history of one service a `List CheckRecord`.
-/

namespace Emma

/-- Health status enum, from `app/models/service.py` (`ServiceStatus`). -/
inductive ServiceStatus where
  | healthy
  | degraded
  | unhealthy
  | unknown
  | paused
deriving DecidableEq, Repr, BEq

/-- A monitored service row, from `app/models/service.py` (`Service`).
Column defaults are reproduced where the manager relies on them. -/
structure Service where
  id : Nat
  name : String
  description : Option String := none
  type : String
  target : String
  config : List (String × String) := []
  interval_seconds : Nat := 60
  timeout_seconds : Nat := 30
  status : ServiceStatus := ServiceStatus.unknown
  is_active : Bool := true
  last_check_at : Option ℚ := none
  last_response_time_ms : Option ℚ := none
  uptime_percentage : ℚ := 0
  consecutive_failures : Nat := 0
  tags : List String := []
  group_name : Option String := none
deriving DecidableEq, Repr

/-- A protocol-specific diagnostic value stored in a result's metadata map,
from the heterogeneous dict values used in `health_checks.py`. -/
inductive MetaVal where
  | str (s : String)
  | int (i : ℤ)
  | bool (b : Bool)
  | strMap (m : List (String × String))
deriving DecidableEq, Repr

/-- The checker's transient return value, from the `CheckResult` dataclass
in `health_checks.py` (called `CheckOutcome` in the spec). -/
structure CheckResult where
  is_healthy : Bool
  response_time_ms : ℚ
  status_code : Option ℤ := none
  message : Option String := none
  error : Option String := none
  metadata : Option (List (String × MetaVal)) := none
deriving DecidableEq, Repr

/-- A persisted check-result row, from `app/models/service.py`
(`CheckResult` ORM model). -/
structure CheckResultModel where
  service_id : Nat
  is_healthy : Bool
  status_code : Option ℤ
  response_time_ms : ℚ
  message : Option String
  error : Option String
  check_metadata : List (String × MetaVal)
  checked_at : ℚ
deriving DecidableEq, Repr

/-- The slice of a persisted check-result row that the uptime query reads
(`service_id` is fixed by the query, so only these two columns matter). -/
structure CheckRecord where
  is_healthy : Bool
  checked_at : ℚ
deriving DecidableEq, Repr

/-- Round-half-to-even on a rational, the tie rule of Python's `round`.
(Python rounds binary floats; on the exact decimal values produced here the
half-even rule is the observable behaviour.) -/
def roundHalfEven (q : ℚ) : ℤ :=
  if Int.fract q < 1 / 2 then ⌊q⌋
  else if 1 / 2 < Int.fract q then ⌊q⌋ + 1
  else if ⌊q⌋ % 2 = 0 then ⌊q⌋ else ⌊q⌋ + 1

/-- `round(x, 2)`: round to two decimal places. -/
def round2 (q : ℚ) : ℚ := (roundHalfEven (q * 100) : ℚ) / 100

/-- `ServiceManager._calculate_uptime`, `service_manager.py` lines 252-282.
The SQL query counts the rows for the service with `checked_at >= since`
(`total`) and sums `CAST(is_healthy AS INTEGER)` over them (`healthy`);
`NULL` sums collapse to `0` via `row.healthy or 0`.  `since` is
`now - hours` passed in by the caller (24h by default). -/
def calculate_uptime (hist : List CheckRecord) (since : ℚ) : ℚ :=
  let inWindow := hist.filter (fun r => decide (since ≤ r.checked_at))
  let total : Nat := inWindow.length
  let healthy : Nat := (inWindow.map (fun r => if r.is_healthy then 1 else 0)).sum
  if total = 0 then 0 else round2 ((healthy : ℚ) / (total : ℚ) * 100)

/-- `ServiceManager._update_service_status`, `service_manager.py` lines
227-250.  `hist` is the persisted history of the service visible to the
uptime query at this point (the just-appended result included, since the
session flushes the pending insert before the `SELECT`). -/
def update_service_status (s : Service) (r : CheckResult) (now : ℚ)
    (hist : List CheckRecord) : Service :=
  let s1 := { s with last_check_at := some now,
                     last_response_time_ms := some r.response_time_ms }
  let s2 :=
    if r.is_healthy then
      { s1 with consecutive_failures := 0, status := ServiceStatus.healthy }
    else
      let cf := s1.consecutive_failures + 1
      { s1 with consecutive_failures := cf,
                status := if 3 ≤ cf then ServiceStatus.unhealthy
                          else ServiceStatus.degraded }
  { s2 with uptime_percentage := calculate_uptime hist (now - 24 * 3600) }

/-- Floor of a rational, as Python's `timedelta.days` floors:
`q.num` and `q.den` are the reduced fraction, `Int.fdiv` rounds toward
negative infinity. -/
def qfloor (q : ℚ) : ℤ := Int.fdiv q.num (q.den : ℤ)

/-- `a` is a leading segment of `b` (character-level prefix test). -/
def charSeqLeads : List Char → List Char → Bool
  | [], _ => true
  | _ :: _, [] => false
  | a :: as, b :: bs => a == b && charSeqLeads as bs

/-- Python's `needle in haystack` on strings, over character lists. -/
def containsChars (hay need : List Char) : Bool :=
  match hay with
  | [] => charSeqLeads need []
  | c :: t => charSeqLeads need (c :: t) || containsChars t need

/-- Python's `str.lower()` (ASCII case folding, which covers every type
string the system produces). -/
def lowerString (s : String) : String := String.mk (s.data.map Char.toLower)

/-- Python's `target.rsplit(":", 1)` on a string containing a colon:
split at the last colon into (head, tail). -/
def rsplitColon (s : String) : String × String :=
  let rev := s.data.reverse
  let revPort := rev.takeWhile (fun c => !(c == ':'))
  let revRest := rev.dropWhile (fun c => !(c == ':'))
  (String.mk (revRest.drop 1).reverse, String.mk revPort.reverse)

/-- `":" in target`. -/
def hasColon (s : String) : Bool := s.data.contains ':'

/-- HTTP checker config keys read in `HTTPChecker.check` with their
documented defaults (`health_checks.py` lines 52-71). -/
structure HttpConfig where
  method : String := "GET"
  expected_status : ℤ := 200
  expected_body : Option String := none
  headers : List (String × String) := []
  verify_ssl : Bool := true
  follow_redirects : Bool := true
deriving DecidableEq, Repr

/-- Observable outcomes of the single HTTP request issued by
`HTTPChecker.check`: a response, or one of the exception classes the
method catches (`httpx.TimeoutException`, `httpx.ConnectError`, any other
`Exception`). -/
inductive HttpEvent where
  | response (status : ℤ) (body : String) (respHeaders : List (String × String))
  | timeout
  | connectError (msg : String)
  | unexpected (msg : String)
deriving DecidableEq, Repr

/-- `HTTPChecker.check`, `health_checks.py` lines 52-127.  `elapsed` is the
monotonic-clock time `_measure_time(start)` reports at the point the
result is built. -/
def HTTPChecker.check (tmo : ℚ) (target : String) (cfg : HttpConfig)
    (ev : HttpEvent) (elapsed : ℚ) : CheckResult :=
  match ev with
  | HttpEvent.response status body respHeaders =>
    let status_ok := status == cfg.expected_status
    let body_ok :=
      match cfg.expected_body with
      | none => true
      | some eb => eb.isEmpty || containsChars body.data eb.data
    let message :=
      if !status_ok then
        some ("Expected status " ++ toString cfg.expected_status ++ ", got " ++ toString status)
      else if !body_ok then
        some ("Response body does not contain expected content")
      else none
    { is_healthy := status_ok && body_ok, response_time_ms := elapsed,
      status_code := some status, message := message,
      metadata := some [("content_length", MetaVal.int (body.length : ℤ)),
                        ("headers", MetaVal.strMap respHeaders)] }
  | HttpEvent.timeout =>
    { is_healthy := false, response_time_ms := elapsed,
      error := some ("Request timeout after " ++ toString tmo ++ "s") }
  | HttpEvent.connectError msg =>
    { is_healthy := false, response_time_ms := elapsed,
      error := some ("Connection failed: " ++ msg) }
  | HttpEvent.unexpected msg =>
    { is_healthy := false, response_time_ms := elapsed,
      error := some ("Check failed: " ++ msg) }

/-- Observable outcomes of the connection attempt in `TCPChecker.check`:
success, `asyncio.TimeoutError`, `ConnectionRefusedError`, or any other
`Exception`. -/
inductive TcpEvent where
  | connected
  | timeout
  | refused
  | unexpected (msg : String)
deriving DecidableEq, Repr

/-- `TCPChecker.check`, `health_checks.py` lines 133-186.  A target with no
colon is rejected before any I/O with `response_time_ms = 0`; a colon with
a non-numeric port makes `int(port_str)` raise `ValueError`, which the
generic handler converts to a `Check failed:` result. -/
def TCPChecker.check (tmo : ℚ) (target : String) (ev : TcpEvent)
    (elapsed : ℚ) : CheckResult :=
  if !hasColon target then
    { is_healthy := false, response_time_ms := 0,
      error := some ("Invalid target format. Expected host:port") }
  else
    let hp := rsplitColon target
    match hp.2.toInt? with
    | none =>
      { is_healthy := false, response_time_ms := elapsed,
        error := some ("Check failed: invalid literal for int(): " ++ hp.2) }
    | some port =>
      match ev with
      | TcpEvent.connected =>
        { is_healthy := true, response_time_ms := elapsed,
          message := some ("Successfully connected to " ++ hp.1 ++ ":" ++ toString port),
          metadata := some [("host", MetaVal.str hp.1), ("port", MetaVal.int port)] }
      | TcpEvent.timeout =>
        { is_healthy := false, response_time_ms := elapsed,
          error := some ("Connection timeout after " ++ toString tmo ++ "s") }
      | TcpEvent.refused =>
        { is_healthy := false, response_time_ms := elapsed,
          error := some ("Connection refused") }
      | TcpEvent.unexpected msg =>
        { is_healthy := false, response_time_ms := elapsed,
          error := some ("Check failed: " ++ msg) }

/-- SSL checker config (`warn_days`, default 30). -/
structure SslConfig where
  warn_days : ℤ := 30
deriving DecidableEq, Repr

/-- Observable outcomes of `_get_cert_info` in `SSLChecker.check`: a
certificate (subject, issuer, serial, expiry timestamp), an empty peer
certificate (`None`), an `ssl.SSLError`, or any other `Exception`. -/
inductive SslEvent where
  | gotCert (subject issuer serial : String) (expires_at : ℚ)
  | noCert
  | sslError (msg : String)
  | unexpected (msg : String)
deriving DecidableEq, Repr

/-- Target parsing in `SSLChecker.check`: `host:port` with `int(port_str)`
(a failing parse raises and lands in the generic handler), or bare host
with default port 443. -/
def sslParseTarget (target : String) : Option (String × ℤ) :=
  if hasColon target then
    ((rsplitColon target).2.toInt?).map (fun p => ((rsplitColon target).1, p))
  else some (target, 443)

/-- `SSLChecker.check`, `health_checks.py` lines 192-263.  `now` is the
wall clock read when computing `days_until_expiry`;
`days = (expires_at - now).days` floors, as `timedelta.days` does. -/
def SSLChecker.check (tmo : ℚ) (target : String) (cfg : SslConfig) (now : ℚ)
    (ev : SslEvent) (elapsed : ℚ) : CheckResult :=
  match sslParseTarget target with
  | none =>
    { is_healthy := false, response_time_ms := elapsed,
      error := some ("Check failed: invalid literal for int(): " ++ (rsplitColon target).2) }
  | some _ =>
    match ev with
    | SslEvent.gotCert subject issuer serial expires_at =>
      let days : ℤ := qfloor ((expires_at - now) / 86400)
      let message :=
        if days ≤ 0 then some ("Certificate has expired!")
        else if days ≤ cfg.warn_days then
          some ("Certificate expires in " ++ toString days ++ " days")
        else none
      { is_healthy := decide (cfg.warn_days < days), response_time_ms := elapsed,
        message := message,
        metadata := some [("subject", MetaVal.str subject),
                          ("issuer", MetaVal.str issuer),
                          ("expires_at", MetaVal.str (toString expires_at)),
                          ("days_until_expiry", MetaVal.int days),
                          ("is_valid", MetaVal.bool (decide (0 < days))),
                          ("serial_number", MetaVal.str serial)] }
    | SslEvent.noCert =>
      { is_healthy := false, response_time_ms := elapsed,
        error := some ("Could not retrieve SSL certificate") }
    | SslEvent.sslError msg =>
      { is_healthy := false, response_time_ms := elapsed,
        error := some ("SSL error: " ++ msg) }
    | SslEvent.unexpected msg =>
      { is_healthy := false, response_time_ms := elapsed,
        error := some ("Check failed: " ++ msg) }

/-- DNS checker config (`expected_ip` optional; `record_type` is read with
default `A` but unused by the implementation). -/
structure DnsConfig where
  expected_ip : Option String := none
  record_type : String := "A"
deriving DecidableEq, Repr

/-- Observable outcomes of `socket.gethostbyname` in `DNSChecker.check`:
an address, a `socket.gaierror`, or any other `Exception`. -/
inductive DnsEvent where
  | resolved (ip : String)
  | gaierror (msg : String)
  | unexpected (msg : String)
deriving DecidableEq, Repr

/-- `DNSChecker.check`, `health_checks.py` lines 307-350.  The guard
`if expected_ip and result != expected_ip` treats an empty configured
string as falsy. -/
def DNSChecker.check (tmo : ℚ) (target : String) (cfg : DnsConfig)
    (ev : DnsEvent) (elapsed : ℚ) : CheckResult :=
  match ev with
  | DnsEvent.resolved ip =>
    let mismatch :=
      match cfg.expected_ip with
      | none => false
      | some e => !e.isEmpty && !(ip == e)
    { is_healthy := !mismatch, response_time_ms := elapsed,
      message :=
        if mismatch then some ("Expected " ++ (cfg.expected_ip.getD "") ++ ", got " ++ ip)
        else some ("Resolved to " ++ ip),
      metadata := some [("resolved_ip", MetaVal.str ip)] }
  | DnsEvent.gaierror msg =>
    { is_healthy := false, response_time_ms := elapsed,
      error := some ("DNS resolution failed: " ++ msg) }
  | DnsEvent.unexpected msg =>
    { is_healthy := false, response_time_ms := elapsed,
      error := some ("Check failed: " ++ msg) }

/-- Ping checker config (`count`, default 3, only forwarded to the ping
command line). -/
structure PingConfig where
  count : Nat := 3
deriving DecidableEq, Repr

/-- Observable outcomes of the `ping` subprocess in `PingChecker.check`: it
completed with an exit code, stdout text and the optionally regex-parsed
average round-trip time, or `asyncio.TimeoutError`, or any other
`Exception`. -/
inductive PingEvent where
  | completed (returncode : ℤ) (output : String) (avg : Option ℚ)
  | timeout
  | unexpected (msg : String)
deriving DecidableEq, Repr

/-- `PingChecker.check`, `health_checks.py` lines 356-409.  The Python
`avg_time or response_time` falls back to elapsed time when the parsed
average is absent or `0.0`. -/
def PingChecker.check (tmo : ℚ) (target : String) (cfg : PingConfig)
    (ev : PingEvent) (elapsed : ℚ) : CheckResult :=
  match ev with
  | PingEvent.completed returncode output avg =>
    let avgOrElapsed :=
      match avg with
      | some a => if a == 0 then elapsed else a
      | none => elapsed
    { is_healthy := returncode == 0, response_time_ms := avgOrElapsed,
      message := if returncode == 0 then some ("Host is reachable")
                 else some ("Host unreachable"),
      metadata := some [("output", MetaVal.str (output.take 500))] }
  | PingEvent.timeout =>
    { is_healthy := false, response_time_ms := elapsed,
      error := some ("Ping timeout after " ++ toString tmo ++ "s") }
  | PingEvent.unexpected msg =>
    { is_healthy := false, response_time_ms := elapsed,
      error := some ("Check failed: " ++ msg) }

/-- The checker classes of `health_checks.py`. -/
inductive CheckerKind where
  | HTTPChecker
  | TCPChecker
  | SSLChecker
  | DNSChecker
  | PingChecker
deriving DecidableEq, Repr

/-- A constructed checker: a class together with the timeout it was
instantiated with (`checker_class(timeout=timeout)`). -/
structure CheckerInst where
  kind : CheckerKind
  timeout : ℚ
deriving DecidableEq, Repr

/-- The `CHECKERS` registry dict, `health_checks.py` lines 413-420. -/
def CHECKERS : List (String × CheckerKind) :=
  [("http", CheckerKind.HTTPChecker), ("https", CheckerKind.HTTPChecker),
   ("tcp", CheckerKind.TCPChecker), ("ssl", CheckerKind.SSLChecker),
   ("dns", CheckerKind.DNSChecker), ("ping", CheckerKind.PingChecker)]

/-- `get_checker`, `health_checks.py` lines 423-428: look the lowercased
type up in `CHECKERS`, raising `ValueError` on a miss. -/
def get_checker (check_type : String) (tmo : ℚ) : Except String CheckerInst :=
  match List.lookup (lowerString check_type) CHECKERS with
  | some k => Except.ok { kind := k, timeout := tmo }
  | none => Except.error ("Unknown check type: " ++ check_type)

/-- The `ServiceType` enum values (`app/models/service.py` lines 31-40),
the set `create_service` validates against.  Note it includes `docker`,
which has no checker in the registry. -/
def service_type_values : List String :=
  ["http", "https", "tcp", "ssl", "dns", "docker", "ping"]

/-- `ServiceManager.create_service`, `service_manager.py` lines 44-87:
validate the type against the `ServiceType` enum, then construct the row
with `status = unknown` and the column defaults (`is_active = true`, no
checks yet, zero failures).  The generated primary key is a parameter. -/
def create_service (id : Nat) (name : String) (type : String) (target : String)
    (description : Option String) (config : Option (List (String × String)))
    (interval_seconds : Nat) (timeout_seconds : Nat)
    (tags : Option (List String)) (group_name : Option String) :
    Except String Service :=
  if !(service_type_values.contains type) then
    Except.error ("Invalid service type: " ++ type)
  else
    Except.ok { id := id, name := name, description := description, type := type,
                target := target, config := config.getD [],
                interval_seconds := interval_seconds,
                timeout_seconds := timeout_seconds, tags := tags.getD [],
                group_name := group_name, status := ServiceStatus.unknown }

/-- The `**updates` mapping passed to `ServiceManager.update_service`: one
optional value per allowed key (`none` stands both for an absent key and
for an explicit `None` value — the `value is not None` guard skips the two
alike) plus whatever keys fall outside the allowed set. -/
structure ServiceUpdate where
  name : Option String := none
  description : Option String := none
  target : Option String := none
  config : Option (List (String × String)) := none
  interval_seconds : Option Nat := none
  timeout_seconds : Option Nat := none
  tags : Option (List String) := none
  group_name : Option String := none
  is_active : Option Bool := none
  extra_keys : List String := []
deriving DecidableEq, Repr

/-- `ServiceManager.update_service`, `service_manager.py` lines 124-145:
`setattr` each allowed, non-`None` value; keys outside `allowed_fields`
never match the guard and are dropped. -/
def update_service (s : Service) (u : ServiceUpdate) : Service :=
  { s with
    name := u.name.getD s.name,
    description := match u.description with
      | some v => some v
      | none => s.description,
    target := u.target.getD s.target,
    config := u.config.getD s.config,
    interval_seconds := u.interval_seconds.getD s.interval_seconds,
    timeout_seconds := u.timeout_seconds.getD s.timeout_seconds,
    tags := u.tags.getD s.tags,
    group_name := match u.group_name with
      | some v => some v
      | none => s.group_name,
    is_active := u.is_active.getD s.is_active }

/-- `ServiceManager.toggle_service`, `service_manager.py` lines 155-165. -/
def toggle_service (s : Service) (is_active : Bool) : Service :=
  { s with is_active := is_active,
           status := if !is_active then ServiceStatus.paused
                     else ServiceStatus.unknown }

/-- `ServiceManager.execute_check`, `service_manager.py` lines 169-225:
build the check-result row, then run `_update_service_status`, whose
uptime query sees the just-flushed new row appended to the persisted
history.  The checker call itself is summarised by `outcome`, the
`CheckResult` it returned. -/
def execute_check (s : Service) (outcome : CheckResult) (now : ℚ)
    (hist : List CheckRecord) : Service × CheckResultModel :=
  let check_result : CheckResultModel :=
    { service_id := s.id, is_healthy := outcome.is_healthy,
      status_code := outcome.status_code,
      response_time_ms := outcome.response_time_ms,
      message := outcome.message, error := outcome.error,
      check_metadata := outcome.metadata.getD [], checked_at := now }
  let s2 := update_service_status s outcome now
    (hist ++ [{ is_healthy := outcome.is_healthy, checked_at := now }])
  (s2, check_result)

/-- The SQL prefilter of `HealthCheckScheduler._get_services_due`
(`scheduler.py` lines 113-122): active, not paused, and never checked or
last checked more than one second ago. -/
def due_sql_prefilter (now : ℚ) (s : Service) : Bool :=
  s.is_active && !(s.status == ServiceStatus.paused) &&
    (match s.last_check_at with
     | none => true
     | some t => decide (t < now - 1))

/-- The per-service interval refilter of `_get_services_due`
(`scheduler.py` lines 127-136): never checked, or
`last_check_at + interval_seconds` has arrived. -/
def due_by_interval (now : ℚ) (s : Service) : Bool :=
  match s.last_check_at with
  | none => true
  | some t => decide (t + (s.interval_seconds : ℚ) ≤ now)

/-- `HealthCheckScheduler._get_services_due`, `scheduler.py` lines
106-137: the SQL candidates, refiltered per service in order. -/
def get_services_due (now : ℚ) (services : List Service) : List Service :=
  (services.filter (due_sql_prefilter now)).filter (due_by_interval now)

/-- `HealthCheckScheduler._check_services`, `scheduler.py` lines 89-104:
one `_run_check(service.id)` task per due service — the scheduler state
holds no record of in-flight service ids, so nothing else filters this
list. -/
def check_services_dispatch (now : ℚ) (services : List Service) : List Nat :=
  (get_services_due now services).map (fun s => s.id)

/-- The spec's due-service characterisation (§4.5): active, non-paused,
and never checked or `last_check_at + interval ≤ now`. -/
def due_per_spec (now : ℚ) (s : Service) : Bool :=
  s.is_active && !(s.status == ServiceStatus.paused) &&
    (match s.last_check_at with
     | none => true
     | some t => decide (t + (s.interval_seconds : ℚ) ≤ now))

/-- The typed errors the manual-trigger route maps exceptions to:
`ServiceNotFoundError` becomes HTTP 404, an inactive service HTTP 400. -/
inductive ApiError where
  | notFound (detail : String)
  | badRequest (detail : String)
deriving DecidableEq, Repr

/-- The POST `/services/{service_id}/check` handler `run_check_now`
(`routers/services.py` lines 217-240): fetch the service by primary key
(`ServiceNotFoundError` → 404), reject an inactive service with 400
`Cannot check inactive service`, otherwise run `execute_check`
synchronously and return its check result. -/
def run_check_now (services : List Service) (service_id : Nat)
    (outcome : CheckResult) (now : ℚ) (hist : List CheckRecord) :
    Except ApiError CheckResultModel :=
  match services.find? (fun s => s.id == service_id) with
  | none => Except.error (ApiError.notFound
      ("Service " ++ toString service_id ++ " not found"))
  | some s =>
    if !s.is_active then
      Except.error (ApiError.badRequest ("Cannot check inactive service"))
    else
      Except.ok (execute_check s outcome now hist).2

/-- C3: the service states reachable through the public operations —
creation, configuration updates, toggles, and the check-execution path
(both of whose call sites, the route handler and `_run_check`, guard on
`is_active`). -/
inductive Reachable : Service → Prop where
  | created : ∀ id name ty target desc cfg i t tags g s,
      create_service id name ty target desc cfg i t tags g = Except.ok s →
      Reachable s
  | updated : ∀ s u, Reachable s → Reachable (update_service s u)
  | toggled : ∀ s b, Reachable s → Reachable (toggle_service s b)
  | checked : ∀ s outcome now hist, Reachable s → s.is_active = true →
      Reachable (execute_check s outcome now hist).1

/-- C3 (amended) reachability: as `Reachable`, but `update_service` is
never supplied an `is_active` value (activation changes go through
`toggle_service` only). -/
inductive ReachableNoActUpdate : Service → Prop where
  | created : ∀ id name ty target desc cfg i t tags g s,
      create_service id name ty target desc cfg i t tags g = Except.ok s →
      ReachableNoActUpdate s
  | updated : ∀ s u, u.is_active = none → ReachableNoActUpdate s →
      ReachableNoActUpdate (update_service s u)
  | toggled : ∀ s b, ReachableNoActUpdate s →
      ReachableNoActUpdate (toggle_service s b)
  | checked : ∀ s outcome now hist, ReachableNoActUpdate s →
      s.is_active = true →
      ReachableNoActUpdate (execute_check s outcome now hist).1

end Emma

namespace Emma

/-- C1 helper: the number of in-window rows, as the spec words it. -/
def windowCount (hist : List CheckRecord) (since : ℚ) : Nat :=
  (hist.filter (fun r => decide (since ≤ r.checked_at))).length

/-- C1 helper: the number of healthy in-window rows, as the spec words it. -/
def windowHealthy (hist : List CheckRecord) (since : ℚ) : Nat :=
  (hist.filter (fun r => decide (since ≤ r.checked_at))).countP (fun r => r.is_healthy)

theorem sum_indicator_eq_countP (l : List CheckRecord) :
    (l.map (fun r => if r.is_healthy then 1 else 0)).sum = l.countP (fun r => r.is_healthy) := by
  induction l with
  | nil => rfl
  | cons a t ih =>
    by_cases h : a.is_healthy <;> simp [List.countP_cons, h, ih] <;> omega

/-- C1: the health state machine sets `last_check_at` and
`last_response_time_ms` unconditionally; a healthy outcome resets
`consecutive_failures` to 0 and forces `status = healthy` from any prior
state; an unhealthy outcome increments `consecutive_failures` by exactly 1
and yields `status = unhealthy` when the new count is at least 3,
`status = degraded` when it is 1 or 2. -/
theorem health_state_update_rules (s : Service) (r : CheckResult) (now : ℚ)
    (hist : List CheckRecord) :
    ((update_service_status s r now hist).last_check_at = some now) ∧
    ((update_service_status s r now hist).last_response_time_ms = some r.response_time_ms) ∧
    (r.is_healthy = true →
      (update_service_status s r now hist).consecutive_failures = 0 ∧
      (update_service_status s r now hist).status = ServiceStatus.healthy) ∧
    (r.is_healthy = false →
      (update_service_status s r now hist).consecutive_failures = s.consecutive_failures + 1 ∧
      (3 ≤ s.consecutive_failures + 1 →
        (update_service_status s r now hist).status = ServiceStatus.unhealthy) ∧
      (s.consecutive_failures + 1 = 1 ∨ s.consecutive_failures + 1 = 2 →
        (update_service_status s r now hist).status = ServiceStatus.degraded)) := by
  by_cases h : r.is_healthy
  · simp [update_service_status, h]
  · refine ⟨by simp [update_service_status, h], by simp [update_service_status, h],
      by simp [h], fun _ => ⟨by simp [update_service_status, h],
      fun h3 => by simp [update_service_status, h, h3], fun h12 => ?_⟩⟩
    have h3 : ¬ 3 ≤ s.consecutive_failures + 1 := by omega
    simp [update_service_status, h, h3]

/-- A concrete failing service used as a sample input. -/
def sampleFailingService : Service :=
  { id := 1, name := "svc", type := "http", target := "http://x",
    consecutive_failures := 5, status := ServiceStatus.unhealthy }

/-- A concrete healthy checker outcome used as a sample input. -/
def sampleHealthyOutcome : CheckResult :=
  { is_healthy := true, response_time_ms := 12 }

/-- C1 witness: concrete evaluation of the state machine on a healthy
outcome against a previously failing service. -/
theorem health_state_update_rules_witness :
    (update_service_status sampleFailingService sampleHealthyOutcome 1000 []).consecutive_failures = 0 ∧
    (update_service_status sampleFailingService sampleHealthyOutcome 1000 []).status = ServiceStatus.healthy :=
  (health_state_update_rules sampleFailingService sampleHealthyOutcome 1000 []).2.2.1 rfl

/-- C5: uptime over `[now - window, now]` is `0` when the window holds no
persisted results, and otherwise `100 * healthy / total` rounded to two
decimal places, recomputed from the persisted history it is given. -/
theorem uptime_window_formula (hist : List CheckRecord) (since : ℚ) :
    (windowCount hist since = 0 → calculate_uptime hist since = 0) ∧
    (windowCount hist since ≠ 0 →
      calculate_uptime hist since =
        round2 (100 * (windowHealthy hist since : ℚ) / (windowCount hist since : ℚ))) := by
  constructor
  · intro h0
    unfold calculate_uptime
    unfold windowCount at h0
    simp [h0]
  · intro hne
    unfold calculate_uptime
    unfold windowCount at hne
    simp only [hne, if_neg, if_false]
    rw [sum_indicator_eq_countP]
    unfold windowHealthy windowCount
    ring_nf

/-- C5 witness: a window with one healthy and two total results gives
`round2 (100 * 1 / 2)`, and an empty window gives `0`. -/
theorem uptime_window_formula_witness :
    calculate_uptime [⟨true, 10⟩, ⟨false, 12⟩] 5 = round2 (100 * (1 : ℚ) / 2) ∧
    calculate_uptime [⟨true, 10⟩, ⟨false, 12⟩] 20 = 0 :=
  ⟨(uptime_window_formula [⟨true, 10⟩, ⟨false, 12⟩] 5).2 (by decide),
   (uptime_window_formula [⟨true, 10⟩, ⟨false, 12⟩] 20).1 (by decide)⟩

/-- C2 helper: the shape every contained expected failure takes — verdict
unhealthy, a descriptive error present, the measured elapsed time
reported. -/
def failureShape (r : CheckResult) (elapsed : ℚ) : Prop :=
  r.is_healthy = false ∧ r.error.isSome = true ∧ r.response_time_ms = elapsed

/-- C2: every checker converts its expected failure modes (timeout,
connection refusal, DNS failure, TLS error, unexpected exceptions) into an
unhealthy result with a descriptive error and the measured elapsed time,
instead of raising; the only exception is the TCP malformed-target path,
which reports `response_time_ms = 0`.  (That the `check` embeddings are
total functions into `CheckResult` is the no-raise guarantee itself.) -/
theorem checker_failure_containment (tmo elapsed now : ℚ) :
    (∀ target cfg m,
      failureShape (HTTPChecker.check tmo target cfg HttpEvent.timeout elapsed) elapsed ∧
      failureShape (HTTPChecker.check tmo target cfg (HttpEvent.connectError m) elapsed) elapsed ∧
      failureShape (HTTPChecker.check tmo target cfg (HttpEvent.unexpected m) elapsed) elapsed) ∧
    (∀ target m,
      (hasColon target = true →
        failureShape (TCPChecker.check tmo target TcpEvent.timeout elapsed) elapsed ∧
        failureShape (TCPChecker.check tmo target TcpEvent.refused elapsed) elapsed ∧
        failureShape (TCPChecker.check tmo target (TcpEvent.unexpected m) elapsed) elapsed) ∧
      (hasColon target = false →
        ∀ ev, TCPChecker.check tmo target ev elapsed =
          { is_healthy := false, response_time_ms := 0,
            error := some ("Invalid target format. Expected host:port") })) ∧
    (∀ target cfg m,
      failureShape (SSLChecker.check tmo target cfg now SslEvent.noCert elapsed) elapsed ∧
      failureShape (SSLChecker.check tmo target cfg now (SslEvent.sslError m) elapsed) elapsed ∧
      failureShape (SSLChecker.check tmo target cfg now (SslEvent.unexpected m) elapsed) elapsed) ∧
    (∀ target cfg m,
      failureShape (DNSChecker.check tmo target cfg (DnsEvent.gaierror m) elapsed) elapsed ∧
      failureShape (DNSChecker.check tmo target cfg (DnsEvent.unexpected m) elapsed) elapsed) ∧
    (∀ target cfg m,
      failureShape (PingChecker.check tmo target cfg PingEvent.timeout elapsed) elapsed ∧
      failureShape (PingChecker.check tmo target cfg (PingEvent.unexpected m) elapsed) elapsed) := by
  refine ⟨?_, ?_, ?_, ?_, ?_⟩
  · intro target cfg m
    exact ⟨⟨rfl, rfl, rfl⟩, ⟨rfl, rfl, rfl⟩, ⟨rfl, rfl, rfl⟩⟩
  · intro target m
    constructor
    · intro hc
      unfold TCPChecker.check
      simp only [hc, Bool.not_true, Bool.false_eq_true, if_false]
      cases h : (rsplitColon target).2.toInt? <;>
        exact ⟨⟨rfl, rfl, rfl⟩, ⟨rfl, rfl, rfl⟩, ⟨rfl, rfl, rfl⟩⟩
    · intro hc ev
      unfold TCPChecker.check
      simp [hc]
  · intro target cfg m
    cases h : sslParseTarget target <;>
      · unfold SSLChecker.check
        rw [h]
        exact ⟨⟨rfl, rfl, rfl⟩, ⟨rfl, rfl, rfl⟩, ⟨rfl, rfl, rfl⟩⟩
  · intro target cfg m
    exact ⟨⟨rfl, rfl, rfl⟩, ⟨rfl, rfl, rfl⟩⟩
  · intro target cfg m
    exact ⟨⟨rfl, rfl, rfl⟩, ⟨rfl, rfl, rfl⟩⟩

/-- C2 witness: a refused TCP connection against a well-formed target, and
the malformed-target scenario `"badformat"` with `response_time_ms = 0`. -/
theorem checker_failure_containment_witness :
    failureShape (TCPChecker.check 5 "localhost:80" TcpEvent.refused 7) 7 ∧
    TCPChecker.check 5 "badformat" TcpEvent.refused 7 =
      { is_healthy := false, response_time_ms := 0,
        error := some ("Invalid target format. Expected host:port") } :=
  ⟨(((checker_failure_containment 5 7 0).2.1 "localhost:80" "x").1 (by decide)).2.1,
   ((checker_failure_containment 5 7 0).2.1 "badformat" "x").2 (by decide) TcpEvent.refused⟩

/-- The spec's six recognized checker type strings (§4.2). -/
def recognized_types : List String := ["http", "https", "tcp", "ssl", "dns", "ping"]

/-- The spec's assignment of checker implementations to recognized type
strings (§4.1): HTTP and HTTPS share one checker, the rest each have their
own. -/
def spec_checker_for (t : String) : Option CheckerKind :=
  if t = "http" ∨ t = "https" then some CheckerKind.HTTPChecker
  else if t = "tcp" then some CheckerKind.TCPChecker
  else if t = "ssl" then some CheckerKind.SSLChecker
  else if t = "dns" then some CheckerKind.DNSChecker
  else if t = "ping" then some CheckerKind.PingChecker
  else none

theorem lookup_checkers_eq_spec (u : String) :
    List.lookup u CHECKERS = spec_checker_for u ∧
    ((List.lookup u CHECKERS).isSome = true ↔ u ∈ recognized_types) := by
  by_cases h1 : u = "http"
  · subst h1; decide
  by_cases h2 : u = "https"
  · subst h2; decide
  by_cases h3 : u = "tcp"
  · subst h3; decide
  by_cases h4 : u = "ssl"
  · subst h4; decide
  by_cases h5 : u = "dns"
  · subst h5; decide
  by_cases h6 : u = "ping"
  · subst h6; decide
  have e1 : (u == "http") = false := beq_eq_false_iff_ne.mpr h1
  have e2 : (u == "https") = false := beq_eq_false_iff_ne.mpr h2
  have e3 : (u == "tcp") = false := beq_eq_false_iff_ne.mpr h3
  have e4 : (u == "ssl") = false := beq_eq_false_iff_ne.mpr h4
  have e5 : (u == "dns") = false := beq_eq_false_iff_ne.mpr h5
  have e6 : (u == "ping") = false := beq_eq_false_iff_ne.mpr h6
  simp [CHECKERS, List.lookup, spec_checker_for, recognized_types,
    e1, e2, e3, e4, e5, e6, h1, h2, h3, h4, h5, h6]

/-- C7 counterexample: the claimed iff is violated at the type string
`"HTTP"`: `get_checker` lowercases its argument before the registry
lookup, so `"HTTP"` succeeds although it is not one of the six recognized
values. -/
theorem get_checker_exact_iff_counterexample :
    ¬ (((get_checker ("HTTP") 30).isOk = false) ↔ ¬ ("HTTP" ∈ recognized_types)) := by
  decide

/-- C7 (amended): `get_checker` fails with the unknown-check-type error
exactly when the lowercased type string is not one of the six recognized
values, and otherwise returns the checker implementation the spec assigns
to that lowercased value, constructed with the given timeout. -/
theorem get_checker_recognizes_lowercased (t : String) (tmo : ℚ) :
    ((get_checker t tmo).isOk = true ↔ lowerString t ∈ recognized_types) ∧
    (∀ c, get_checker t tmo = Except.ok c →
      c.timeout = tmo ∧ spec_checker_for (lowerString t) = some c.kind) := by
  have hl := lookup_checkers_eq_spec (lowerString t)
  constructor
  · rw [← hl.2]
    unfold get_checker
    cases h : List.lookup (lowerString t) CHECKERS <;>
      simp [h, Except.isOk, Except.toBool]
  · intro c hc
    unfold get_checker at hc
    cases h : List.lookup (lowerString t) CHECKERS with
    | none => rw [h] at hc; exact absurd hc (by simp)
    | some k =>
      rw [h] at hc
      have hck : c = { kind := k, timeout := tmo } := by
        cases hc; rfl
      subst hck
      rw [h] at hl
      exact ⟨rfl, hl.1.symm⟩

/-- C7 witness: a recognized lowercase value succeeds with the right
implementation and timeout. -/
theorem get_checker_recognizes_lowercased_witness :
    get_checker ("tcp") 10 = Except.ok { kind := CheckerKind.TCPChecker, timeout := 10 } ∧
    ({ kind := CheckerKind.TCPChecker, timeout := 10 } : CheckerInst).timeout = 10 ∧
    spec_checker_for (lowerString ("tcp")) = some CheckerKind.TCPChecker :=
  have h := (get_checker_recognizes_lowercased "tcp" 10).2
    { kind := CheckerKind.TCPChecker, timeout := 10 } rfl
  ⟨rfl, h.1, h.2⟩

/-- C8: when the SSL probe completes with a certificate, the verdict is
healthy exactly when `days_until_expiry > warn_days`, and the metadata
carries the subject, issuer, serial number, expiry and
`days_until_expiry` regardless of the verdict. -/
theorem ssl_expiry_verdict_and_metadata (tmo elapsed now expires : ℚ)
    (target subject issuer serial : String) (cfg : SslConfig)
    (hp : (sslParseTarget target).isSome = true) :
    ((SSLChecker.check tmo target cfg now
        (SslEvent.gotCert subject issuer serial expires) elapsed).is_healthy = true ↔
      cfg.warn_days < qfloor ((expires - now) / 86400)) ∧
    (∃ md, (SSLChecker.check tmo target cfg now
        (SslEvent.gotCert subject issuer serial expires) elapsed).metadata = some md ∧
      md.lookup ("subject") = some (MetaVal.str subject) ∧
      md.lookup ("issuer") = some (MetaVal.str issuer) ∧
      md.lookup ("serial_number") = some (MetaVal.str serial) ∧
      md.lookup ("expires_at") = some (MetaVal.str (toString expires)) ∧
      md.lookup ("days_until_expiry") =
        some (MetaVal.int (qfloor ((expires - now) / 86400)))) := by
  cases h : sslParseTarget target with
  | none => rw [h] at hp; exact absurd hp (by simp)
  | some pr =>
    unfold SSLChecker.check
    rw [h]
    refine ⟨by simp, _, rfl, ?_, ?_, ?_, ?_, ?_⟩ <;> rfl

/-- C8 witness: the spec's scenario — a certificate expiring in 10 days
with the default `warn_days = 30` is unhealthy, with
`days_until_expiry = 10` in the metadata. -/
theorem ssl_expiry_verdict_and_metadata_witness :
    (SSLChecker.check 5 "example.com" {} 0
      (SslEvent.gotCert "s" "i" "1" 864000) 7).is_healthy = false ∧
    (∃ md, (SSLChecker.check 5 "example.com" {} 0
        (SslEvent.gotCert "s" "i" "1" 864000) 7).metadata = some md ∧
      md.lookup ("days_until_expiry") = some (MetaVal.int 10)) := by
  have h := ssl_expiry_verdict_and_metadata 5 7 0 864000 "example.com" "s" "i" "1" {}
    (by decide)
  have h10 : ((864000 : ℚ) - 0) / 86400 = 10 := by norm_num
  have hd : qfloor (((864000 : ℚ) - 0) / 86400) = 10 := by rw [h10]; decide
  constructor
  · rcases Bool.eq_false_or_eq_true (SSLChecker.check 5 "example.com" {} 0
      (SslEvent.gotCert "s" "i" "1" 864000) 7).is_healthy with ht | hf
    · exact absurd (h.1.mp ht) (by rw [hd]; decide)
    · exact hf
  · obtain ⟨md, hmd, _, _, _, _, hdays⟩ := h.2
    exact ⟨md, hmd, by rw [← hd]; exact hdays⟩

/-- A freshly created sample service (the row `create_service` builds for
these arguments). -/
def sampleCreated : Service :=
  { id := 7, name := "api", type := "http", target := "http://a" }

theorem sampleCreated_created :
    create_service 7 "api" "http" "http://a" none none 60 30 none none =
      Except.ok sampleCreated := rfl

theorem execute_check_is_active (s : Service) (outcome : CheckResult)
    (now : ℚ) (hist : List CheckRecord) :
    (execute_check s outcome now hist).1.is_active = s.is_active := by
  unfold execute_check update_service_status
  by_cases h : outcome.is_healthy <;> simp [h]

theorem execute_check_status_not_paused (s : Service) (outcome : CheckResult)
    (now : ℚ) (hist : List CheckRecord) :
    (execute_check s outcome now hist).1.status ≠ ServiceStatus.paused := by
  unfold execute_check update_service_status
  by_cases h : outcome.is_healthy
  · simp [h]
  · by_cases h3 : 3 ≤ s.consecutive_failures + 1 <;> simp [h, h3]

/-- C3 counterexample: updating a freshly created (active, `unknown`)
service with `is_active = false` through `update_service` yields a
reachable state that is inactive yet not `paused` — `update_service`
changes the flag without touching the status. -/
theorem paused_iff_inactive_counterexample :
    Reachable (update_service sampleCreated { is_active := some false }) ∧
    ¬ ((update_service sampleCreated { is_active := some false }).status =
          ServiceStatus.paused ↔
       (update_service sampleCreated { is_active := some false }).is_active = false) :=
  ⟨Reachable.updated sampleCreated { is_active := some false }
    (Reachable.created 7 "api" "http" "http://a" none none 60 30 none none
      sampleCreated sampleCreated_created),
   by decide⟩

/-- C3 (amended): `status = paused ↔ is_active = false` holds on every
state reachable via `create_service`, `toggle_service`, the guarded check
execution path, and `update_service` calls that do not carry an
`is_active` value. -/
theorem paused_iff_inactive_invariant (s : Service)
    (h : ReachableNoActUpdate s) :
    s.status = ServiceStatus.paused ↔ s.is_active = false := by
  induction h with
  | created id name ty target desc cfg i t tags g s hok =>
    unfold create_service at hok
    split at hok
    · exact absurd hok (by simp)
    · cases hok
      simp
  | updated s u hnone _ ih =>
    have hst : (update_service s u).status = s.status := rfl
    have hac : (update_service s u).is_active = s.is_active := by
      simp [update_service, hnone]
    rw [hst, hac]
    exact ih
  | toggled s b _ _ =>
    cases b <;> simp [toggle_service]
  | checked s outcome now hist _ hact _ =>
    have h1 := execute_check_status_not_paused s outcome now hist
    have h2 := execute_check_is_active s outcome now hist
    constructor
    · intro hp
      exact absurd hp h1
    · intro hia
      rw [h2, hact] at hia
      simp at hia

/-- C3 amended-theorem witness: the invariant instantiated at a concrete
reachable state. -/
theorem paused_iff_inactive_invariant_witness :
    sampleCreated.status = ServiceStatus.paused ↔
      sampleCreated.is_active = false :=
  paused_iff_inactive_invariant sampleCreated
    (ReachableNoActUpdate.created 7 "api" "http" "http://a" none none 60 30
      none none sampleCreated sampleCreated_created)

/-- C10: `update_service` never touches the health-state fields (nor the
id or the type), applies an allowed field only when a value is supplied
(`none` leaves it unchanged), can never clear a nullable allowed field to
null, and ignores keys outside the allowed set. -/
theorem update_service_frame_and_effects (s : Service) (u : ServiceUpdate) :
    ((update_service s u).id = s.id) ∧
    ((update_service s u).type = s.type) ∧
    ((update_service s u).status = s.status) ∧
    ((update_service s u).consecutive_failures = s.consecutive_failures) ∧
    ((update_service s u).uptime_percentage = s.uptime_percentage) ∧
    ((update_service s u).last_check_at = s.last_check_at) ∧
    ((update_service s u).last_response_time_ms = s.last_response_time_ms) ∧
    (u.name = none → (update_service s u).name = s.name) ∧
    (u.description = none → (update_service s u).description = s.description) ∧
    (u.target = none → (update_service s u).target = s.target) ∧
    (u.config = none → (update_service s u).config = s.config) ∧
    (u.interval_seconds = none →
      (update_service s u).interval_seconds = s.interval_seconds) ∧
    (u.timeout_seconds = none →
      (update_service s u).timeout_seconds = s.timeout_seconds) ∧
    (u.tags = none → (update_service s u).tags = s.tags) ∧
    (u.group_name = none → (update_service s u).group_name = s.group_name) ∧
    (u.is_active = none → (update_service s u).is_active = s.is_active) ∧
    ((update_service s u).description = none → s.description = none) ∧
    ((update_service s u).group_name = none → s.group_name = none) ∧
    (∀ ks, update_service s { u with extra_keys := ks } = update_service s u) := by
  refine ⟨rfl, rfl, rfl, rfl, rfl, rfl, rfl, ?_, ?_, ?_, ?_, ?_, ?_, ?_, ?_,
    ?_, ?_, ?_, ?_⟩
  · intro h; simp [update_service, h]
  · intro h; simp [update_service, h]
  · intro h; simp [update_service, h]
  · intro h; simp [update_service, h]
  · intro h; simp [update_service, h]
  · intro h; simp [update_service, h]
  · intro h; simp [update_service, h]
  · intro h; simp [update_service, h]
  · intro h; simp [update_service, h]
  · intro h
    cases hd : u.description with
    | none => simp [update_service, hd] at h; exact h
    | some v => simp [update_service, hd] at h
  · intro h
    cases hg : u.group_name with
    | none => simp [update_service, hg] at h; exact h
    | some v => simp [update_service, hg] at h
  · intro ks; rfl

/-- C10 witness: a name-only update leaves status and activity intact. -/
theorem update_service_frame_and_effects_witness :
    (update_service sampleCreated { name := some ("gw") }).status =
      sampleCreated.status ∧
    (update_service sampleCreated { name := some ("gw") }).is_active =
      sampleCreated.is_active :=
  ⟨(update_service_frame_and_effects sampleCreated { name := some ("gw") }).2.2.1,
   (update_service_frame_and_effects sampleCreated
      { name := some ("gw")
        }).2.2.2.2.2.2.2.2.2.2.2.2.2.2.2.1 rfl⟩

/-- C4: the manual-trigger route returns a typed not-found error when no
service has the id, a typed bad-request error when the service is
inactive, and otherwise the check result produced by the shared
single-service check logic `execute_check` — its total `Except` codomain
is the guarantee that callers never see raw network exceptions. -/
theorem run_check_now_typed_outcome (services : List Service) (sid : Nat)
    (outcome : CheckResult) (now : ℚ) (hist : List CheckRecord) :
    ((∀ s ∈ services, s.id ≠ sid) →
      run_check_now services sid outcome now hist =
        Except.error (ApiError.notFound
          ("Service " ++ toString sid ++ " not found"))) ∧
    (∀ s, services.find? (fun x => x.id == sid) = some s →
      (s.is_active = false →
        run_check_now services sid outcome now hist =
          Except.error (ApiError.badRequest ("Cannot check inactive service"))) ∧
      (s.is_active = true →
        run_check_now services sid outcome now hist =
          Except.ok (execute_check s outcome now hist).2)) := by
  constructor
  · intro habs
    have hnone : services.find? (fun x => x.id == sid) = none := by
      rw [List.find?_eq_none]
      intro a ha
      simpa using habs a ha
    unfold run_check_now
    rw [hnone]
  · intro s hfind
    constructor
    · intro hia
      unfold run_check_now
      rw [hfind]
      simp [hia]
    · intro hia
      unfold run_check_now
      rw [hfind]
      simp [hia]

/-- An inactive sample service for the manual-trigger witness. -/
def sampleInactiveService : Service :=
  { id := 3, name := "db", type := "tcp", target := "h:5432",
    is_active := false, status := ServiceStatus.paused }

/-- C4 witness: a missing id gives the typed not-found error, an inactive
service the typed bad-request error. -/
theorem run_check_now_typed_outcome_witness :
    run_check_now [sampleInactiveService] 9 sampleHealthyOutcome 50 [] =
      Except.error (ApiError.notFound ("Service " ++ toString 9 ++ " not found")) ∧
    run_check_now [sampleInactiveService] 3 sampleHealthyOutcome 50 [] =
      Except.error (ApiError.badRequest ("Cannot check inactive service")) :=
  ⟨(run_check_now_typed_outcome [sampleInactiveService] 9
      sampleHealthyOutcome 50 []).1 (by decide),
   ((run_check_now_typed_outcome [sampleInactiveService] 3
      sampleHealthyOutcome 50 []).2 sampleInactiveService (by decide)).1 rfl⟩

/-- C6: under the system's own floor on check intervals
(`interval_seconds ≥ 10`, enforced by the API schemas), the due set the
scheduler computes is exactly the active, non-paused services that were
never checked or whose `last_check_at + interval_seconds` has arrived —
the per-service interval refilter is authoritative, the broad 1-second SQL
prefilter never excludes an interval-due service. -/
theorem services_due_exactly_interval_due (now : ℚ) (services : List Service)
    (hmin : ∀ s ∈ services, 10 ≤ s.interval_seconds) :
    get_services_due now services = services.filter (due_per_spec now) := by
  unfold get_services_due
  rw [List.filter_filter]
  apply List.filter_congr
  intro s hs
  have h10 : (10 : ℚ) ≤ (s.interval_seconds : ℚ) := by
    exact_mod_cast hmin s hs
  unfold due_sql_prefilter due_by_interval due_per_spec
  cases hact : s.is_active
  · simp
  · cases hp : s.status == ServiceStatus.paused
    · cases hlc : s.last_check_at with
      | none => simp
      | some t =>
        simp only [Bool.true_and, Bool.not_false]
        by_cases hdue : t + (s.interval_seconds : ℚ) ≤ now
        · have hlt : t < now - 1 := by linarith
          simp [hdue, hlt]
        · simp [hdue]
    · simp

/-- C6 witness: a never-checked service with `interval = 60` is due
immediately, and the computed due set matches the spec characterisation. -/
theorem services_due_exactly_interval_due_witness :
    get_services_due 100 [sampleCreated] =
      [sampleCreated].filter (due_per_spec 100) ∧
    get_services_due 100 [sampleCreated] = [sampleCreated] :=
  ⟨services_due_exactly_interval_due 100 [sampleCreated] (by decide),
   by decide⟩

/-- C9 counterexample: two successive poll ticks, ten seconds apart, over
an unchanged table — the first dispatched check has not committed, i.e. is
still in flight, so `last_check_at` is still null — both dispatch service
0: the scheduler re-dispatches instead of skipping a service mid-check. -/
theorem scheduler_redispatch_counterexample :
    check_services_dispatch 0 [sampleCreated] = [7] ∧
    check_services_dispatch 10 [sampleCreated] = [7] := by
  constructor <;> decide

/-- C9 (amended): the scheduler tracks no in-flight service ids — its
state is only the semaphore, the running flag and the loop task — and on
every poll tick it dispatches a `_run_check` for every due service,
whether or not a previous check of the same service is still running;
per-service pile-up is bounded only by the global semaphore. -/
theorem scheduler_dispatches_every_due_service (now : ℚ)
    (services : List Service) (s : Service)
    (hs : s ∈ get_services_due now services) :
    s.id ∈ check_services_dispatch now services := by
  unfold check_services_dispatch
  exact List.mem_map_of_mem _ hs

/-- C9 amended-theorem witness. -/
theorem scheduler_dispatches_every_due_service_witness :
    (7 : Nat) ∈ check_services_dispatch 0 [sampleCreated] :=
  scheduler_dispatches_every_due_service 0 [sampleCreated] sampleCreated
    (by decide)

end Emma
